import Mathlib

/-!
Verification of the Geospatial Matching & Coordination Engine of the DRS
disaster-response dashboard.

The distance helper, the nearby-SOS alert filter and the USGS feed mapper are
embedded from the TypeScript sources (`useSOSSocket.ts`, the USGS service
module).  The backend coordination operations (dispatch selection, incident
clustering, offer ranking/acceptance, broadcast-scope resolution) are not part
of the supplied sources — only their documentation and frontend callers are —
so they are modelled from the specification, as marked on each definition.

JavaScript floating-point numbers are modelled as real numbers (`ℝ`) where the
source computes with trigonometry, and as exact rationals (`ℚ`) where only
arithmetic comparisons matter, so that decisions are decidable.
-/

namespace DRS

/-! ## GeoMath: `calculateDistance` from `useSOSSocket.ts` -/

/-- `toRad` from `useSOSSocket.ts`: degrees to radians, `deg * (Math.PI / 180)`. -/
noncomputable def toRad (deg : ℝ) : ℝ := deg * (Real.pi / 180)

/-- JavaScript `Math.atan2 y x` on real (non-NaN) inputs: the angle of the
point `(x, y)`, by the usual case split on the quadrant. -/
noncomputable def atan2 (y x : ℝ) : ℝ :=
  if 0 < x then Real.arctan (y / x)
  else if x < 0 then
    (if 0 ≤ y then Real.arctan (y / x) + Real.pi else Real.arctan (y / x) - Real.pi)
  else
    (if 0 < y then Real.pi / 2 else if y < 0 then -(Real.pi / 2) else 0)

/-- `calculateDistance` from `useSOSSocket.ts`: the Haversine formula with
Earth radius `R = 6371` km.  The function performs no validation of its
inputs; it is total on all four real arguments. -/
noncomputable def calculateDistance (lat1 lon1 lat2 lon2 : ℝ) : ℝ :=
  let R : ℝ := 6371
  let dLat := toRad (lat2 - lat1)
  let dLon := toRad (lon2 - lon1)
  let a := Real.sin (dLat / 2) * Real.sin (dLat / 2) +
    Real.cos (toRad lat1) * Real.cos (toRad lat2) *
    (Real.sin (dLon / 2) * Real.sin (dLon / 2))
  let c := 2 * atan2 (Real.sqrt a) (Real.sqrt (1 - a))
  R * c

/-- A geographic point, as in the spec data model. -/
structure GeoPoint where
  latitude : ℝ
  longitude : ℝ

/-- The spec's validity range for coordinates: latitude in `[-90, 90]`,
longitude in `[-180, 180]`. -/
def validPoint (p : GeoPoint) : Prop :=
  -90 ≤ p.latitude ∧ p.latitude ≤ 90 ∧ -180 ≤ p.longitude ∧ p.longitude ≤ 180

/-- The spec's `distanceKm` on `GeoPoint`s, realised in the source by
`calculateDistance`. -/
noncomputable def distanceKm (a b : GeoPoint) : ℝ :=
  calculateDistance a.latitude a.longitude b.latitude b.longitude

/-! ## Nearby SOS alerts: `useNearbySOSAlerts` from `useSOSSocket.ts` -/

/-- The `alert_type` union of the `SOSAlert` interface. -/
inductive AlertType
  | new_sos
  | status_update
  | resource_assigned
  | resolved
deriving DecidableEq

/-- The `SOSAlert` interface of `useSOSSocket.ts`. -/
structure SOSAlert where
  id : ℤ
  sos_report_id : ℤ
  alert_type : AlertType
  message : String
  broadcast_scope : String
  latitude : ℝ
  longitude : ℝ
  timestamp : String

/-- The `onAlert` handler of `useNearbySOSAlerts`: an incoming alert is kept
exactly when its Haversine distance to the subscription point is at most
`radiusKm`, in which case it is prepended to the first 99 retained alerts
(`[alert, ...prev.slice(0, 99)]`); otherwise the state is unchanged. -/
noncomputable def nearbyStep (latitude longitude radiusKm : ℝ)
    (prev : List SOSAlert) (alert : SOSAlert) : List SOSAlert :=
  if calculateDistance latitude longitude alert.latitude alert.longitude ≤ radiusKm then
    alert :: prev.take 99
  else prev

/-- The alert list produced by `useNearbySOSAlerts` after a stream of incoming
alerts, starting from the initial empty state. -/
noncomputable def nearbyAlerts (latitude longitude radiusKm : ℝ)
    (incoming : List SOSAlert) : List SOSAlert :=
  incoming.foldl (nearbyStep latitude longitude radiusKm) []

/-! ## USGS earthquake feed: `fetchUSGSEarthquakes` from the USGS service -/

/-- The `Disaster['severity']` union of the mock-disaster data module. -/
inductive Severity
  | critical
  | high
  | moderate
  | low
deriving DecidableEq

/-- The disaster `type` values produced by the USGS mapper. -/
inductive DisasterType
  | tsunami
  | earthquake
deriving DecidableEq

/-- The disaster `status` values produced by the USGS mapper. -/
inductive DisasterStatus
  | active
  | monitoring
deriving DecidableEq

/-- The `USGSFeature` interface: `id` plus the `properties` and `geometry`
fields the mapper reads.  `coordinates` is the `[lng, lat, depth]` triple;
`tsunami` is the numeric flag whose JavaScript truthiness (`≠ 0`) is tested. -/
structure USGSFeature where
  id : String
  mag : ℚ
  place : String
  time : ℤ
  tsunami : ℤ
  title : String
  coordinates : ℚ × ℚ × ℚ
deriving DecidableEq

/-- The fields of the `Disaster` record built by the USGS mapper. -/
structure Disaster where
  id : String
  dtype : DisasterType
  name : String
  location : String
  lat : ℚ
  lng : ℚ
  severity : Severity
  magnitude : ℚ
  affectedPopulation : ℤ
  deployedTeams : ℤ
  timestamp : ℤ
  description : String
  status : DisasterStatus
deriving DecidableEq

/-- `mapSeverity` from the USGS service module. -/
def mapSeverity (mag : ℚ) : Severity :=
  if mag ≥ 7 then .critical
  else if mag ≥ 5.5 then .high
  else if mag ≥ 4 then .moderate
  else .low

/-- `estimateAffected` from the USGS service module, with the `Math.random()`
draw made explicit as the parameter `rand ∈ [0, 1)`. -/
def estimateAffected (mag rand : ℚ) : ℤ :=
  if mag ≥ 7 then ⌊100000 + rand * 500000⌋
  else if mag ≥ 5.5 then ⌊10000 + rand * 50000⌋
  else if mag ≥ 4 then ⌊1000 + rand * 10000⌋
  else ⌊100 + rand * 2000⌋

/-- The per-feature mapping inside `fetchUSGSEarthquakes`; `rand` abstracts the
two `Math.random()` draws (affected population and deployed teams), and the
`toFixed(1)`/ISO-date formatting of the description is abstracted by plain
`toString`. -/
def usgsToDisaster (rand : ℚ × ℚ) (f : USGSFeature) : Disaster :=
  let lng := f.coordinates.1
  let lat := f.coordinates.2.1
  let severity := mapSeverity f.mag
  { id := "usgs-" ++ f.id
    dtype := if f.tsunami ≠ 0 then .tsunami else .earthquake
    name := f.title
    location := if f.place = "" then "Unknown" else f.place
    lat := lat
    lng := lng
    severity := severity
    magnitude := f.mag
    affectedPopulation := estimateAffected f.mag rand.1
    deployedTeams := ⌊rand.2 * 20⌋ + 2
    timestamp := f.time
    description := "M" ++ toString f.mag ++ " earthquake detected. " ++
      (if f.tsunami ≠ 0 then "Tsunami risk flagged." else "No tsunami risk.") ++
      " USGS live data."
    status := if severity = .critical ∨ severity = .high then .active else .monitoring }

/-- `fetchUSGSEarthquakes`: the `fetch`/`res.ok`/`res.json()` pipeline is
modelled by an `Except` input (`.error` for a network failure, a non-ok HTTP
status, or a malformed body — every path that throws into the `catch`), and
the `Math.random()` draws by the oracle `rand`.  On error the `catch` returns
`[]`; on success the first 15 features are mapped to disasters. -/
def fetchUSGSEarthquakes (rand : USGSFeature → ℚ × ℚ)
    (resp : Except String (List USGSFeature)) : List Disaster :=
  match resp with
  | .error _ => []
  | .ok features => (features.take 15).map (fun f => usgsToDisaster (rand f) f)

/-! ## The coordination core

The backend implementing the coordination engine is not among the supplied
sources — only its documentation and its frontend callers are — so the
definitions below are modelled from the specification.  Coordinates and
distances are exact rationals, and the GeoMath dependency is abstracted as an
explicit distance-function argument `dist`, so that every decision is
decidable. -/

/-- A geographic point with exact rational coordinates, used by the
spec-modelled core. -/
structure RatPoint where
  latitude : ℚ
  longitude : ℚ
deriving DecidableEq

/-- The resource types of the spec data model. -/
inductive ResourceType
  | ambulance
  | drone
  | rescue_team
  | fire_truck
deriving DecidableEq

/-- The resource statuses of the spec data model. -/
inductive ResourceStatus
  | available
  | busy
  | offline
deriving DecidableEq

/-- The spec's `Resource` record (its `type` field is named `rtype` here);
`speedKmh` is `none` when the resource does not report a speed. -/
structure Resource where
  id : ℕ
  rtype : ResourceType
  status : ResourceStatus
  location : RatPoint
  speedKmh : Option ℚ
deriving DecidableEq

/-- The incident statuses of the spec data model. -/
inductive IncidentStatus
  | pending
  | acknowledged
  | in_progress
  | resolved
  | cancelled
deriving DecidableEq

/-- The spec's `Incident` (SOS report) record. -/
structure Incident where
  id : ℕ
  location : RatPoint
  severity : ℚ
  emergencyType : String
  reportedAt : ℤ
  status : IncidentStatus
deriving DecidableEq

/-- The spec's `DispatchDecision` output record. -/
structure DispatchDecision where
  resourceId : ℕ
  distanceKm : ℚ
  estimatedArrivalMinutes : ℚ
  rationale : String
deriving DecidableEq

/-- Modelled from the spec: the configurable type-specific nominal speeds used
when a resource reports none (ambulance 60, drone 80, rescue_team 40; the
unlisted fire_truck default is taken as 50). -/
def nominalSpeedKmh : ResourceType → ℚ
  | .ambulance => 60
  | .drone => 80
  | .rescue_team => 40
  | .fire_truck => 50

/-- The travel speed used for a resource: its reported speed, or the nominal
speed of its type. -/
def effectiveSpeed (r : Resource) : ℚ :=
  r.speedKmh.getD (nominalSpeedKmh r.rtype)

/-- Modelled from the spec: the position of a type in the `typePriority` list,
with types absent from the list ranked after every listed type (and all types
ranked equally, at `0`, when the list is empty). -/
def typeRank (typePriority : List ResourceType) (t : ResourceType) : ℕ :=
  match typePriority with
  | [] => 0
  | t' :: rest => if t' = t then 0 else typeRank rest t + 1

/-- Modelled from the spec: the dispatch score of a candidate, compared
lexicographically — type-priority group first (a hard partition), then
distance to the incident, then resource id as the deterministic tie-break. -/
def dispatchKey (dist : RatPoint → RatPoint → ℚ) (typePriority : List ResourceType)
    (incident : Incident) (r : Resource) : ℚ × ℚ × ℚ :=
  ((typeRank typePriority r.rtype : ℚ), dist incident.location r.location, (r.id : ℚ))

/-- Strict lexicographic comparison of dispatch scores: lower is better. -/
def keyLt (a b : ℚ × ℚ × ℚ) : Bool :=
  decide (a.1 < b.1 ∨ (a.1 = b.1 ∧ (a.2.1 < b.2.1 ∨ (a.2.1 = b.2.1 ∧ a.2.2 < b.2.2))))

/-- Fold selecting the element strictly better than everything seen so far. -/
def argbest {α : Type} (lt : α → α → Bool) : α → List α → α
  | best, [] => best
  | best, c :: rest => argbest lt (if lt c best then c else best) rest

/-- Step 1 of `selectResource`: the candidates with `status = available`. -/
def availableOf (candidates : List Resource) : List Resource :=
  candidates.filter (fun r => decide (r.status = .available))

/-- Modelled from the spec: the core of `selectResource` — the available
candidate with the lexicographically least dispatch score, or `none` when no
candidate is available. -/
def pickResource (dist : RatPoint → RatPoint → ℚ) (incident : Incident)
    (candidates : List Resource) (typePriority : List ResourceType) : Option Resource :=
  match availableOf candidates with
  | [] => none
  | r :: rest =>
    some (argbest (fun a b => keyLt (dispatchKey dist typePriority incident a)
      (dispatchKey dist typePriority incident b)) r rest)

/-- Modelled from the spec: `selectResource` returns the dispatch decision for
the best available candidate (`none` models `NoResourceAvailable`). -/
def selectResource (dist : RatPoint → RatPoint → ℚ) (incident : Incident)
    (candidates : List Resource) (typePriority : List ResourceType) :
    Option DispatchDecision :=
  (pickResource dist incident candidates typePriority).map (fun r =>
    { resourceId := r.id
      distanceKm := dist incident.location r.location
      estimatedArrivalMinutes := dist incident.location r.location / effectiveSpeed r * 60
      rationale := "nearest available resource matching priority" })

/-- The broadcast tiers of the spec data model. -/
inductive Scope
  | immediate
  | district
  | state
  | national
deriving DecidableEq

/-- The spec's `BroadcastScope` output record. -/
structure BroadcastScope where
  scope : Scope
  estimatedRecipients : ℕ
deriving DecidableEq

/-- Modelled from the spec: `resolveScope`, the pure severity-to-tier policy
table with lower bounds inclusive and upper bounds exclusive. -/
def resolveScope (severity : ℚ) : BroadcastScope :=
  if severity < 5 then ⟨.immediate, 500⟩
  else if severity < 8 then ⟨.district, 50000⟩
  else if severity < 10 then ⟨.state, 500000⟩
  else ⟨.national, 5000000⟩

/-- Eligibility for clustering: the three active incident statuses. -/
def isActive (i : Incident) : Bool :=
  decide (i.status = .pending ∨ i.status = .acknowledged ∨ i.status = .in_progress)

/-- Modelled from the spec: two eligible incidents of the supplied set are
directly linked when their pairwise distance is at most `radiusKm`. -/
def linked (dist : RatPoint → RatPoint → ℚ) (radiusKm : ℚ) (incidents : List Incident)
    (a b : Incident) : Prop :=
  a ∈ incidents ∧ b ∈ incidents ∧ isActive a ∧ isActive b ∧
    dist a.location b.location ≤ radiusKm

/-- Modelled from the spec: cluster membership is the reflexive-transitive
(single-linkage) closure of the direct-link relation. -/
def sameCluster (dist : RatPoint → RatPoint → ℚ) (radiusKm : ℚ)
    (incidents : List Incident) (a b : Incident) : Prop :=
  Relation.ReflTransGen (linked dist radiusKm incidents) a b

open Classical in
/-- Modelled from the spec: the member list of the cluster containing `x` —
the incidents of the input connected to `x` under single-linkage closure. -/
noncomputable def clusterOf (dist : RatPoint → RatPoint → ℚ) (radiusKm : ℚ)
    (incidents : List Incident) (x : Incident) : List Incident :=
  incidents.filter (fun b => decide (sameCluster dist radiusKm incidents x b))

/-- The spec's `AssistanceOffer` record; `acceptedAt = none` means the offer is
not yet accepted. -/
structure AssistanceOffer where
  id : ℕ
  incidentId : ℕ
  helperLocation : RatPoint
  assistanceType : String
  isVerified : Bool
  rating : Option ℚ
  offeredAt : ℤ
  acceptedAt : Option ℤ
deriving DecidableEq

/-- The results of `acceptOffer` in the spec. -/
inductive AcceptResult
  | AcceptedOffer
  | AlreadyAccepted
  | NotFound
deriving DecidableEq

/-- Modelled from the spec: `acceptOffer`, the pure decision function — it
verifies that the target offer exists and is not already accepted. -/
def acceptOffer (offers : List AssistanceOffer) (offerId : ℕ) : AcceptResult :=
  match offers.find? (fun o => decide (o.id = offerId)) with
  | none => .NotFound
  | some o => if o.acceptedAt = none then .AcceptedOffer else .AlreadyAccepted

/-- Modelled from the spec: the state transition the caller persists after an
accepted decision — the target offer's `acceptedAt` is set to the acceptance
time. -/
def applyAccept (offers : List AssistanceOffer) (offerId : ℕ) (t : ℤ) :
    List AssistanceOffer :=
  offers.map (fun o => if o.id = offerId then { o with acceptedAt := some t } else o)

/-- The spec's `RankedOffer`: an offer annotated with its distance and
estimated arrival time. -/
structure RankedOffer where
  offer : AssistanceOffer
  distanceKm : ℚ
  estimatedArrivalMinutes : ℚ
deriving DecidableEq

/-- The fixed assumed travel speed for ad-hoc volunteers (40 km/h). -/
def crowdSpeedKmh : ℚ := 40

/-- Modelled from the spec: the ranking order on offers — strictly smaller
distance first, ties broken by `offeredAt` ascending (first offered wins), and
no tie-break on rating. -/
def offerLE (a b : RankedOffer) : Prop :=
  a.distanceKm < b.distanceKm ∨
    (a.distanceKm = b.distanceKm ∧ a.offer.offeredAt ≤ b.offer.offeredAt)

instance : DecidableRel offerLE := fun a b => by
  unfold offerLE
  infer_instance

instance : IsTotal RankedOffer offerLE :=
  ⟨fun a b => by
    unfold offerLE
    rcases lt_trichotomy a.distanceKm b.distanceKm with h | h | h
    · exact Or.inl (Or.inl h)
    · rcases le_total a.offer.offeredAt b.offer.offeredAt with h2 | h2
      · exact Or.inl (Or.inr ⟨h, h2⟩)
      · exact Or.inr (Or.inr ⟨h.symm, h2⟩)
    · exact Or.inr (Or.inl h)⟩

instance : IsTrans RankedOffer offerLE :=
  ⟨fun a b c hab hbc => by
    unfold offerLE at hab hbc ⊢
    rcases hab with h | ⟨h1, h2⟩ <;> rcases hbc with h' | ⟨h1', h2'⟩
    · exact Or.inl (lt_trans h h')
    · exact Or.inl (h1' ▸ h)
    · exact Or.inl (h1 ▸ h')
    · exact Or.inr ⟨h1.trans h1', le_trans h2 h2'⟩⟩

/-- The available (not yet accepted) offers annotated with distance and
arrival estimate at the assumed 40 km/h. -/
def scoredOffers (dist : RatPoint → RatPoint → ℚ) (incident : Incident)
    (offers : List AssistanceOffer) : List RankedOffer :=
  (offers.filter (fun o => decide (o.acceptedAt = none))).map
    (fun o => ⟨o, dist incident.location o.helperLocation,
      dist incident.location o.helperLocation / crowdSpeedKmh * 60⟩)

/-- Modelled from the spec: `rankOffers` — available offers sorted ascending
by distance (ties by `offeredAt`), truncated to the top `limit` when given. -/
def rankOffers (dist : RatPoint → RatPoint → ℚ) (incident : Incident)
    (offers : List AssistanceOffer) (limit : Option ℕ) : List RankedOffer :=
  let sorted := List.insertionSort offerLE (scoredOffers dist incident offers)
  match limit with
  | none => sorted
  | some n => sorted.take n

/-- A concrete stand-in distance for worked examples: the latitude of the
destination point.  The worked examples below encode each candidate's distance
from the incident in its latitude (so a resource at latitude 3 is "3 km
away"), which keeps evaluation free of rational arithmetic. -/
def exDist (_p q : RatPoint) : ℚ := q.latitude

/-- Worked-example incident at the origin. -/
def exIncident : Incident := ⟨100, ⟨0, 0⟩, 8, "fire", 0, .pending⟩

/-- Worked-example available ambulance 3 km from the incident. -/
def exAmbulance3 : Resource := ⟨1, .ambulance, .available, ⟨3, 0⟩, none⟩

/-- Worked-example available ambulance 8 km from the incident. -/
def exAmbulance8 : Resource := ⟨3, .ambulance, .available, ⟨8, 0⟩, none⟩

/-- Worked-example available drone 8 km from the incident. -/
def exDrone8 : Resource := ⟨2, .drone, .available, ⟨8, 0⟩, none⟩

/-- Worked-example active incident for clustering. -/
def exIncidentA : Incident := ⟨200, ⟨0, 0⟩, 6, "flood", 0, .pending⟩

/-- Second worked-example active incident for clustering. -/
def exIncidentB : Incident := ⟨201, ⟨1, 0⟩, 7, "flood", 1, .acknowledged⟩

/-- Worked-example fresh assistance offer, 3 km from the incident. -/
def exOffer : AssistanceOffer := ⟨1, 100, ⟨3, 0⟩, "medical", true, none, 0, none⟩

end DRS

namespace DRS

/-! ## Theorems about GeoMath -/

theorem toRad_neg (x : ℝ) : toRad (-x) = -toRad x := by
  unfold toRad; ring

theorem sin_toRad_sub_sq (x y : ℝ) :
    Real.sin (toRad (x - y) / 2) * Real.sin (toRad (x - y) / 2) =
      Real.sin (toRad (y - x) / 2) * Real.sin (toRad (y - x) / 2) := by
  have h : toRad (x - y) / 2 = -(toRad (y - x) / 2) := by
    unfold toRad; ring
  rw [h, Real.sin_neg]
  ring

/-- Symmetry of the source Haversine in its two points. -/
theorem calculateDistance_comm (lat1 lon1 lat2 lon2 : ℝ) :
    calculateDistance lat1 lon1 lat2 lon2 = calculateDistance lat2 lon2 lat1 lon1 := by
  simp only [calculateDistance]
  rw [sin_toRad_sub_sq lat2 lat1, sin_toRad_sub_sq lon2 lon1,
    mul_comm (Real.cos (toRad lat1)) (Real.cos (toRad lat2))]

/-- C3: for every pair of points (in particular every pair of valid points),
the source Haversine distance is symmetric in its two arguments:
`distanceKm a b = distanceKm b a`. -/
theorem distanceKm_symm (a b : GeoPoint) : distanceKm a b = distanceKm b a :=
  calculateDistance_comm a.latitude a.longitude b.latitude b.longitude

/-- The Haversine of a point with itself is zero, with no range restriction on
the coordinates. -/
theorem calculateDistance_self (lat lon : ℝ) : calculateDistance lat lon lat lon = 0 := by
  simp [calculateDistance, toRad, atan2]

theorem arctan_nonneg {t : ℝ} (h : 0 ≤ t) : 0 ≤ Real.arctan t := by
  have h2 := Real.arctan_strictMono.monotone h
  rwa [Real.arctan_zero] at h2

theorem atan2_nonneg {y x : ℝ} (hy : 0 ≤ y) (hx : 0 ≤ x) : 0 ≤ atan2 y x := by
  unfold atan2
  split_ifs with h1 h2 h3 h4 <;>
    first
      | exact arctan_nonneg (div_nonneg hy h1.le)
      | linarith [Real.pi_pos]

/-- C2 (amended): the source `calculateDistance` performs no coordinate
validation: it is total over all real inputs, in range or not, and always
returns a non-negative numeric distance; no `InvalidCoordinate` error path
exists in the function. -/
theorem calculateDistance_total (lat1 lon1 lat2 lon2 : ℝ) :
    0 ≤ calculateDistance lat1 lon1 lat2 lon2 := by
  simp only [calculateDistance]
  exact mul_nonneg (by norm_num)
    (mul_nonneg (by norm_num) (atan2_nonneg (Real.sqrt_nonneg _) (Real.sqrt_nonneg _)))

/-- C2 counterexample: for the out-of-range point `(100, 0)` (latitude 100 is
outside `[-90, 90]`) the source `calculateDistance` does not fail: it returns
the numeric distance `0`, contradicting the claim that out-of-range inputs
produce an `InvalidCoordinate` error rather than a numeric distance. -/
theorem calculateDistance_out_of_range_numeric :
    ¬ validPoint ⟨100, 0⟩ ∧ distanceKm ⟨100, 0⟩ ⟨100, 0⟩ = 0 := by
  constructor
  · intro h
    have h2 := h.2.1
    norm_num at h2
  · exact calculateDistance_self 100 0

/-- C8 (amended): `distanceKm a a = 0` for every point `a` (valid or not);
however zero distance does not imply equality of the input points, see the
counterexample. -/
theorem distanceKm_self (a : GeoPoint) : distanceKm a a = 0 :=
  calculateDistance_self a.latitude a.longitude

/-- C8 counterexample: the distinct valid points `(0, -180)` and `(0, 180)`
(the two representations of the antimeridian at the equator) are unequal as
input values yet have Haversine distance exactly `0`, refuting the claim that
the distance is zero only when the two input points are equal. -/
theorem distanceKm_zero_of_antimeridian :
    validPoint ⟨0, -180⟩ ∧ validPoint ⟨0, 180⟩ ∧
      (⟨0, -180⟩ : GeoPoint) ≠ ⟨0, 180⟩ ∧ distanceKm ⟨0, -180⟩ ⟨0, 180⟩ = 0 := by
  refine ⟨by norm_num [validPoint], by norm_num [validPoint], ?_, ?_⟩
  · intro h
    exact absurd (congrArg GeoPoint.longitude h) (by norm_num)
  · show calculateDistance 0 (-180) 0 180 = 0
    simp only [calculateDistance]
    have hLat : toRad (0 - 0) = 0 := by unfold toRad; ring
    have hLon : toRad (180 - -180) / 2 = Real.pi := by unfold toRad; ring
    rw [hLat, hLon]
    simp [Real.sin_pi, atan2, Real.arctan_zero]

/-! ## Theorems about `useNearbySOSAlerts` -/

theorem nearbyStep_length (lat lon r : ℝ) (prev : List SOSAlert) (al : SOSAlert)
    (h : prev.length ≤ 100) : (nearbyStep lat lon r prev al).length ≤ 100 := by
  unfold nearbyStep
  split_ifs
  · simp only [List.length_cons, List.length_take]
    omega
  · exact h

theorem nearbyStep_mem {lat lon r : ℝ} {prev : List SOSAlert} {al b : SOSAlert}
    (h : b ∈ nearbyStep lat lon r prev al) :
    b ∈ prev ∨ (b = al ∧ calculateDistance lat lon al.latitude al.longitude ≤ r) := by
  unfold nearbyStep at h
  split_ifs at h with hd
  · rcases List.mem_cons.mp h with h1 | h1
    · exact Or.inr ⟨h1, hd⟩
    · exact Or.inl (List.take_subset 99 prev h1)
  · exact Or.inl h

theorem nearbyFold_invariant (lat lon r : ℝ) (incoming : List SOSAlert) :
    ∀ prev : List SOSAlert, prev.length ≤ 100 →
      ((incoming.foldl (nearbyStep lat lon r) prev).length ≤ 100 ∧
        ∀ b ∈ incoming.foldl (nearbyStep lat lon r) prev,
          b ∈ prev ∨ calculateDistance lat lon b.latitude b.longitude ≤ r) := by
  induction incoming with
  | nil => exact fun prev h => ⟨h, fun b hb => Or.inl hb⟩
  | cons al rest ih =>
    intro prev h
    simp only [List.foldl_cons]
    obtain ⟨h1, h2⟩ := ih (nearbyStep lat lon r prev al) (nearbyStep_length lat lon r prev al h)
    refine ⟨h1, fun b hb => ?_⟩
    rcases h2 b hb with hmem | hd
    · rcases nearbyStep_mem hmem with h3 | ⟨rfl, h3⟩
      · exact Or.inl h3
      · exact Or.inr h3
    · exact Or.inr hd

/-- C9: the alert handler of `useNearbySOSAlerts` retains an incoming alert
exactly when its Haversine distance to the subscription point is at most
`radiusKm` (boundary included): a within-radius alert is prepended to the
first 99 previously retained alerts, a strictly farther alert leaves the list
unchanged; consequently every retained alert is within the radius and the
retained list never exceeds 100 entries. -/
theorem nearbyAlerts_spec (lat lon r : ℝ) :
    (∀ incoming, (nearbyAlerts lat lon r incoming).length ≤ 100) ∧
    (∀ incoming, ∀ b ∈ nearbyAlerts lat lon r incoming,
        calculateDistance lat lon b.latitude b.longitude ≤ r) ∧
    (∀ prev al, calculateDistance lat lon al.latitude al.longitude ≤ r →
        nearbyStep lat lon r prev al = al :: prev.take 99) ∧
    (∀ prev al, ¬ calculateDistance lat lon al.latitude al.longitude ≤ r →
        nearbyStep lat lon r prev al = prev) := by
  refine ⟨?_, ?_, ?_, ?_⟩
  · intro incoming
    exact (nearbyFold_invariant lat lon r incoming [] (by simp)).1
  · intro incoming b hb
    rcases (nearbyFold_invariant lat lon r incoming [] (by simp)).2 b hb with h | h
    · simp at h
    · exact h
  · intro prev al h
    unfold nearbyStep
    exact if_pos h
  · intro prev al h
    unfold nearbyStep
    exact if_neg h

/-- Concrete instance of C9: an alert at the subscription point itself (distance
`0 ≤ 0`) is retained, becoming the head of the alert list. -/
theorem nearbyAlerts_spec_witness :
    calculateDistance 0 0 0 0 ≤ 0 ∧
      nearbyStep 0 0 0 [] ⟨1, 1, AlertType.new_sos, "", "", 0, 0, ""⟩ =
        [⟨1, 1, AlertType.new_sos, "", "", 0, 0, ""⟩] :=
  have h : calculateDistance 0 0 0 0 ≤ 0 := le_of_eq (calculateDistance_self 0 0)
  ⟨h, (nearbyAlerts_spec 0 0 0).2.2.1 [] ⟨1, 1, AlertType.new_sos, "", "", 0, 0, ""⟩ h⟩

/-! ## Theorems about the dispatch selector -/

theorem keyLt_iff (a b : ℚ × ℚ × ℚ) :
    keyLt a b = true ↔
      toLex (a.1, toLex (a.2.1, a.2.2)) < toLex (b.1, toLex (b.2.1, b.2.2)) := by
  simp [keyLt, Prod.Lex.lt_iff]

theorem keyLt_irrefl (a : ℚ × ℚ × ℚ) : keyLt a a = false := by
  rw [Bool.eq_false_iff]
  intro h
  exact lt_irrefl _ ((keyLt_iff a a).mp h)

theorem keyLt_asymm {a b : ℚ × ℚ × ℚ} (h : keyLt a b = true) : keyLt b a = false := by
  rw [Bool.eq_false_iff]
  intro h2
  exact lt_asymm ((keyLt_iff a b).mp h) ((keyLt_iff b a).mp h2)

theorem keyLt_neg_trans {x y z : ℚ × ℚ × ℚ} (h1 : keyLt x y = false)
    (h2 : keyLt y z = false) : keyLt x z = false := by
  rw [Bool.eq_false_iff] at h1 h2 ⊢
  intro h
  have hyx := not_lt.mp (fun hc => h1 ((keyLt_iff x y).mpr hc))
  have hzy := not_lt.mp (fun hc => h2 ((keyLt_iff y z).mpr hc))
  exact absurd ((keyLt_iff x z).mp h) (not_lt.mpr (le_trans hzy hyx))

/-- `keyLt a b = false` unfolds to the lexicographic `b ≤ a`. -/
theorem keyLt_false_le {a b : ℚ × ℚ × ℚ} (h : keyLt a b = false) :
    b.1 < a.1 ∨ (b.1 = a.1 ∧ (b.2.1 < a.2.1 ∨ (b.2.1 = a.2.1 ∧ b.2.2 ≤ a.2.2))) := by
  have h2 : ¬ (toLex (a.1, toLex (a.2.1, a.2.2)) < toLex (b.1, toLex (b.2.1, b.2.2))) :=
    fun hc => (Bool.eq_false_iff.mp h) ((keyLt_iff a b).mpr hc)
  have h3 := not_lt.mp h2
  rw [Prod.Lex.le_iff] at h3
  rcases h3 with h4 | ⟨h4, h5⟩
  · exact Or.inl (by simpa using h4)
  · rw [Prod.Lex.le_iff] at h5
    refine Or.inr ⟨by simpa using h4, ?_⟩
    rcases h5 with h6 | ⟨h6, h7⟩
    · exact Or.inl (by simpa using h6)
    · exact Or.inr ⟨by simpa using h6, by simpa using h7⟩

theorem argbest_min {α : Type} (lt : α → α → Bool)
    (hasym : ∀ a b, lt a b = true → lt b a = false)
    (hneg : ∀ a b c, lt a b = false → lt b c = false → lt a c = false)
    (hirr : ∀ a, lt a a = false) :
    ∀ (l : List α) (b : α),
      argbest lt b l ∈ b :: l ∧ ∀ x ∈ b :: l, lt x (argbest lt b l) = false := by
  intro l
  induction l with
  | nil =>
    intro b
    refine ⟨List.mem_cons_self b [], fun x hx => ?_⟩
    rcases List.mem_cons.mp hx with h2 | hx'
    · rw [h2]; exact hirr b
    · exact absurd hx' (List.not_mem_nil x)
  | cons c rest ih =>
    intro b
    simp only [argbest]
    by_cases h : lt c b = true
    · rw [if_pos h]
      obtain ⟨hmem, hmin⟩ := ih c
      refine ⟨List.mem_cons_of_mem b hmem, fun x hx => ?_⟩
      rcases List.mem_cons.mp hx with h2 | hx'
      · rw [h2]; exact hneg b c _ (hasym c b h) (hmin c (List.mem_cons_self c rest))
      · exact hmin x hx'
    · rw [if_neg h]
      obtain ⟨hmem, hmin⟩ := ih b
      have hstay : argbest lt b rest ∈ b :: c :: rest := by
        rcases List.mem_cons.mp hmem with h2 | h2
        · rw [h2]; exact List.mem_cons_self b (c :: rest)
        · exact List.mem_cons_of_mem b (List.mem_cons_of_mem c h2)
      refine ⟨hstay, fun x hx => ?_⟩
      rcases List.mem_cons.mp hx with h2 | hx'
      · rw [h2]; exact hmin b (List.mem_cons_self b rest)
      rcases List.mem_cons.mp hx' with h2 | hx''
      · rw [h2]; exact hneg c b _ (Bool.eq_false_iff.mpr h) (hmin b (List.mem_cons_self b rest))
      · exact hmin x (List.mem_cons_of_mem b hx'')

/-- C1: whenever `selectResource` (via its core `pickResource`) picks a
candidate, that candidate is available and its type appears no later in
`typePriority` than the type of any other available candidate — regardless of
distance — while distance decides only between candidates of the same
type-priority rank.  In particular, with `typePriority = [drone]` the drone
8 km away beats the ambulance 3 km away, and with no type priority the 3 km
ambulance beats the 8 km one. -/
theorem selectResource_spec :
    (∀ dist incident candidates typePriority r,
        pickResource dist incident candidates typePriority = some r →
        r ∈ availableOf candidates ∧
        ∀ r' ∈ availableOf candidates,
          typeRank typePriority r.rtype ≤ typeRank typePriority r'.rtype ∧
          (typeRank typePriority r.rtype = typeRank typePriority r'.rtype →
            dist incident.location r.location ≤ dist incident.location r'.location)) ∧
    (selectResource exDist exIncident [exDrone8, exAmbulance3] [.drone]).map
        DispatchDecision.resourceId = some 2 ∧
    (selectResource exDist exIncident [exAmbulance3, exAmbulance8] []).map
        DispatchDecision.resourceId = some 1 := by
  refine ⟨?_, by decide, by decide⟩
  intro dist incident candidates tp r hr
  unfold pickResource at hr
  revert hr
  cases havail : availableOf candidates with
  | nil => intro hr; exact absurd hr (by simp)
  | cons b rest =>
    intro hr
    have hr2 := Option.some.inj hr
    obtain ⟨hmem, hmin⟩ := argbest_min
      (fun a c => keyLt (dispatchKey dist tp incident a) (dispatchKey dist tp incident c))
      (fun a c => keyLt_asymm) (fun a c d => keyLt_neg_trans) (fun a => keyLt_irrefl _)
      rest b
    rw [hr2] at hmem hmin
    refine ⟨hmem, fun r' hr' => ?_⟩
    have hk := keyLt_false_le (hmin r' hr')
    simp only [dispatchKey] at hk
    rcases hk with h1 | ⟨h1, h2⟩
    · have h3 := Nat.cast_lt.mp h1
      exact ⟨le_of_lt h3, fun heq => absurd h3 (by omega)⟩
    · have h3 : typeRank tp r.rtype = typeRank tp r'.rtype := Nat.cast_inj.mp h1
      refine ⟨le_of_eq h3, fun _ => ?_⟩
      rcases h2 with h4 | ⟨h4, _⟩
      · exact le_of_lt h4
      · exact le_of_eq h4

/-- Concrete instance of C1: with a single available ambulance, the selector
picks it, it is available, and its type-priority rank is minimal. -/
theorem selectResource_spec_witness :
    pickResource exDist exIncident [exAmbulance3] [] = some exAmbulance3 ∧
      exAmbulance3 ∈ availableOf [exAmbulance3] ∧
      typeRank [] exAmbulance3.rtype ≤ typeRank [] exAmbulance3.rtype :=
  have h : pickResource exDist exIncident [exAmbulance3] [] = some exAmbulance3 := by decide
  have hall := selectResource_spec.1 exDist exIncident [exAmbulance3] [] exAmbulance3 h
  ⟨h, hall.1, (hall.2 exAmbulance3 hall.1).1⟩

/-! ## Theorems about the broadcast-scope resolver -/

/-- C4: `resolveScope` follows the severity table with lower bounds inclusive
and upper bounds exclusive — `[0, 5)` is immediate with about 500 recipients,
`[5, 8)` district with about 50,000, `[8, 10)` state with about 500,000, and
`severity ≥ 10` national with about 5,000,000; in particular `resolveScope 9`
is state with 500,000 recipients and `resolveScope 4` is immediate. -/
theorem resolveScope_spec :
    (∀ s : ℚ,
      (0 ≤ s → s < 5 → resolveScope s = ⟨.immediate, 500⟩) ∧
      (5 ≤ s → s < 8 → resolveScope s = ⟨.district, 50000⟩) ∧
      (8 ≤ s → s < 10 → resolveScope s = ⟨.state, 500000⟩) ∧
      (10 ≤ s → resolveScope s = ⟨.national, 5000000⟩)) ∧
    resolveScope 9 = ⟨.state, 500000⟩ ∧
    resolveScope 4 = ⟨.immediate, 500⟩ := by
  refine ⟨fun s => ?_, by decide, by decide⟩
  refine ⟨fun h1 h2 => ?_, fun h1 h2 => ?_, fun h1 h2 => ?_, fun h1 => ?_⟩ <;>
    · unfold resolveScope
      split_ifs <;> first | rfl | linarith

/-- Concrete instance of C4: severity 9 lies in `[8, 10)` and resolves to the
state tier with 500,000 estimated recipients. -/
theorem resolveScope_spec_witness :
    (8 ≤ (9 : ℚ) ∧ (9 : ℚ) < 10) ∧ resolveScope 9 = ⟨.state, 500000⟩ :=
  ⟨⟨by norm_num, by norm_num⟩, (resolveScope_spec.1 9).2.2.1 (by norm_num) (by norm_num)⟩

/-! ## Theorems about the incident clusterer -/

/-- C5: cluster membership is the single-linkage (reflexive-transitive)
closure of the pairwise-distance relation restricted to eligible incidents,
and the clusters depend only on the set of incidents supplied: permuting the
input list (or calling again on the same unchanged input) yields clusters
with identical membership. -/
theorem cluster_spec :
    (∀ (dist : RatPoint → RatPoint → ℚ) (r : ℚ) (l1 l2 : List Incident) (x : Incident),
        l1.Perm l2 → (clusterOf dist r l1 x).Perm (clusterOf dist r l2 x)) ∧
    (∀ (dist : RatPoint → RatPoint → ℚ) (r : ℚ) (l : List Incident) (x b : Incident),
        b ∈ clusterOf dist r l x ↔ b ∈ l ∧ sameCluster dist r l x b) := by
  constructor
  · intro dist r l1 l2 x hperm
    have hlink : linked dist r l1 = linked dist r l2 := by
      funext a b
      exact propext (by simp [linked, hperm.mem_iff])
    have hsame : sameCluster dist r l1 = sameCluster dist r l2 := by
      unfold sameCluster
      rw [hlink]
    unfold clusterOf
    refine (hperm.filter _).trans (List.Perm.of_eq ?_)
    refine List.filter_congr fun b _ => ?_
    rw [hsame]
  · intro dist r l x b
    unfold clusterOf
    rw [List.mem_filter]
    simp

/-- Concrete instance of C5: the two-incident input in its two orders yields
clusters of `exClusterA` with identical membership. -/
theorem cluster_spec_witness :
    ([exIncidentA, exIncidentB].Perm [exIncidentB, exIncidentA]) ∧
      (clusterOf exDist 2 [exIncidentA, exIncidentB] exIncidentA).Perm
        (clusterOf exDist 2 [exIncidentB, exIncidentA] exIncidentA) :=
  have h : ([exIncidentA, exIncidentB].Perm [exIncidentB, exIncidentA]) := by decide
  ⟨h, cluster_spec.1 exDist 2 [exIncidentA, exIncidentB] [exIncidentB, exIncidentA]
    exIncidentA h⟩

/-! ## Theorems about offer acceptance -/

theorem find?_applyAccept (offers : List AssistanceOffer) (offerId : ℕ) (t : ℤ) :
    (applyAccept offers offerId t).find? (fun o => decide (o.id = offerId)) =
      (offers.find? (fun o => decide (o.id = offerId))).map
        (fun o => if o.id = offerId then { o with acceptedAt := some t } else o) := by
  induction offers with
  | nil => rfl
  | cons a rest ih =>
    by_cases h : a.id = offerId
    · simp [applyAccept, List.find?_cons, h]
    · simpa [applyAccept, List.find?_cons, h] using ih

/-- C6: when the offer set contains an offer with the requested id whose
`acceptedAt` is null, `acceptOffer` returns `AcceptedOffer`; after the caller
persists the acceptance (setting `acceptedAt`), a second `acceptOffer` on the
same id returns `AlreadyAccepted` — so of two sequential calls exactly the
first accepts. -/
theorem acceptOffer_spec :
    ∀ (offers : List AssistanceOffer) (offerId : ℕ) (t : ℤ) (o : AssistanceOffer),
      offers.find? (fun o' => decide (o'.id = offerId)) = some o →
      o.acceptedAt = none →
      acceptOffer offers offerId = .AcceptedOffer ∧
        acceptOffer (applyAccept offers offerId t) offerId = .AlreadyAccepted := by
  intro offers offerId t o hfind hnone
  have hid : o.id = offerId := by
    have h2 := List.find?_some hfind
    exact of_decide_eq_true h2
  constructor
  · unfold acceptOffer
    rw [hfind]
    simp [hnone]
  · unfold acceptOffer
    rw [find?_applyAccept, hfind]
    simp [hid]

/-- Concrete instance of C6: a single fresh offer is accepted on the first
call and reported as already accepted on the second. -/
theorem acceptOffer_spec_witness :
    ([exOffer].find? (fun o' => decide (o'.id = 1)) = some exOffer ∧
        exOffer.acceptedAt = none) ∧
      acceptOffer [exOffer] 1 = .AcceptedOffer ∧
        acceptOffer (applyAccept [exOffer] 1 5) 1 = .AlreadyAccepted :=
  have h1 : [exOffer].find? (fun o' => decide (o'.id = 1)) = some exOffer := by decide
  have h2 : exOffer.acceptedAt = none := rfl
  ⟨⟨h1, h2⟩, acceptOffer_spec [exOffer] 1 5 exOffer h1 h2⟩

/-! ## Theorems about offer ranking -/

/-- C7: `rankOffers` returns the available offers sorted by the ranking order
`offerLE` — strictly smaller helper-to-incident distance first, ties broken by
`offeredAt` ascending, with no tie-break on rating — as a permutation of the
annotated available offers; a given `limit` truncates the sorted list to its
first `limit` entries (the top-N nearest); and every ranked offer carries
`estimatedArrivalMinutes = distanceKm / 40 * 60`. -/
theorem rankOffers_spec :
    ∀ (dist : RatPoint → RatPoint → ℚ) (incident : Incident)
      (offers : List AssistanceOffer),
      List.Sorted offerLE (rankOffers dist incident offers none) ∧
      (∀ n, rankOffers dist incident offers (some n) =
        (rankOffers dist incident offers none).take n) ∧
      (rankOffers dist incident offers none).Perm (scoredOffers dist incident offers) ∧
      (∀ ro ∈ rankOffers dist incident offers none,
        ro.estimatedArrivalMinutes = ro.distanceKm / 40 * 60 ∧
          ro.offer.acceptedAt = none) := by
  intro dist incident offers
  refine ⟨List.sorted_insertionSort offerLE _, fun n => rfl,
    List.perm_insertionSort offerLE _, ?_⟩
  intro ro hro
  have h2 : ro ∈ scoredOffers dist incident offers :=
    (List.perm_insertionSort offerLE _).subset hro
  simp only [scoredOffers, List.mem_map, List.mem_filter] at h2
  obtain ⟨o, ⟨_, hacc⟩, rfl⟩ := h2
  exact ⟨rfl, of_decide_eq_true hacc⟩

/-- Concrete instance of C7: the single available offer appears in the
ranking, with its arrival estimate at 40 km/h. -/
theorem rankOffers_spec_witness :
    (⟨exOffer, exDist exIncident.location exOffer.helperLocation,
        exDist exIncident.location exOffer.helperLocation / crowdSpeedKmh * 60⟩ :
      RankedOffer) ∈ rankOffers exDist exIncident [exOffer] none ∧
      (⟨exOffer, exDist exIncident.location exOffer.helperLocation,
          exDist exIncident.location exOffer.helperLocation / crowdSpeedKmh * 60⟩ :
        RankedOffer).estimatedArrivalMinutes =
        (⟨exOffer, exDist exIncident.location exOffer.helperLocation,
            exDist exIncident.location exOffer.helperLocation / crowdSpeedKmh * 60⟩ :
          RankedOffer).distanceKm / 40 * 60 :=
  have hmem : (⟨exOffer, exDist exIncident.location exOffer.helperLocation,
      exDist exIncident.location exOffer.helperLocation / crowdSpeedKmh * 60⟩ :
      RankedOffer) ∈ rankOffers exDist exIncident [exOffer] none := by
    simp [rankOffers, scoredOffers, List.insertionSort]
  ⟨hmem, ((rankOffers_spec exDist exIncident [exOffer]).2.2.2 _ hmem).1⟩

/-! ## Theorems about the USGS feed -/

/-- C10: `fetchUSGSEarthquakes` never propagates an error: every failure path
(network error, non-ok status, malformed body) returns the empty list; a
successful response yields at most 15 disaster records; and each record's
severity is `mapSeverity` of its magnitude, which maps `mag ≥ 7` to critical,
`5.5 ≤ mag < 7` to high, `4 ≤ mag < 5.5` to moderate and `mag < 4` to low. -/
theorem fetchUSGSEarthquakes_spec (rand : USGSFeature → ℚ × ℚ) :
    (∀ e, fetchUSGSEarthquakes rand (.error e) = []) ∧
    (∀ features, (fetchUSGSEarthquakes rand (.ok features)).length ≤ 15) ∧
    (∀ features, ∀ d ∈ fetchUSGSEarthquakes rand (.ok features),
        d.severity = mapSeverity d.magnitude) ∧
    (∀ m : ℚ, (7 ≤ m → mapSeverity m = .critical) ∧
      (5.5 ≤ m → m < 7 → mapSeverity m = .high) ∧
      (4 ≤ m → m < 5.5 → mapSeverity m = .moderate) ∧
      (m < 4 → mapSeverity m = .low)) := by
  refine ⟨fun e => rfl, ?_, ?_, ?_⟩
  · intro features
    simp only [fetchUSGSEarthquakes, List.length_map, List.length_take]
    omega
  · intro features d hd
    simp only [fetchUSGSEarthquakes, List.mem_map] at hd
    obtain ⟨f, _, rfl⟩ := hd
    rfl
  · intro m
    refine ⟨fun h => ?_, fun h1 h2 => ?_, fun h1 h2 => ?_, fun h => ?_⟩ <;>
      · unfold mapSeverity
        split_ifs <;> first | rfl | linarith

/-- Concrete instance of C10: magnitudes 8, 6, 4.5 and 3 map to the four
severity tiers. -/
theorem fetchUSGSEarthquakes_spec_witness :
    (7 ≤ (8 : ℚ) ∧ mapSeverity 8 = .critical) ∧
      ((5.5 ≤ (6 : ℚ) ∧ (6 : ℚ) < 7) ∧ mapSeverity 6 = .high) ∧
      ((4 ≤ (4.5 : ℚ) ∧ (4.5 : ℚ) < 5.5) ∧ mapSeverity 4.5 = .moderate) ∧
      ((3 : ℚ) < 4 ∧ mapSeverity 3 = .low) :=
  ⟨⟨by norm_num, ((fetchUSGSEarthquakes_spec (fun _ => (0, 0))).2.2.2 8).1 (by norm_num)⟩,
    ⟨⟨by norm_num, by norm_num⟩,
      ((fetchUSGSEarthquakes_spec (fun _ => (0, 0))).2.2.2 6).2.1 (by norm_num) (by norm_num)⟩,
    ⟨⟨by norm_num, by norm_num⟩,
      ((fetchUSGSEarthquakes_spec (fun _ => (0, 0))).2.2.2 4.5).2.2.1 (by norm_num) (by norm_num)⟩,
    ⟨by norm_num,
      ((fetchUSGSEarthquakes_spec (fun _ => (0, 0))).2.2.2 3).2.2.2 (by norm_num)⟩⟩

end DRS
